import Mathlib

/-!
Verification of the Queen Mama LITE desktop-shell layer
(`src/web_app/src-tauri/src/window.rs`, `shortcuts.rs`).

The Rust code is shallowly embedded: windows are records of the attributes
the shell reads and writes (visibility, focus, position, size,
always-on-top); the application world holds the two named windows, the
resolved monitor and the list of events emitted to the UI layer; every
remote-invocable operation is a function `World → Except String α × World`.
Rust `u32 as i32` casts are modelled by `u32_as_i32`, and Rust signed
integer division (truncation toward zero) by `Int.tdiv`.
-/

namespace QueenMama

/-- Physical size in pixels; fields are Rust `u32` values. -/
structure PhysicalSize where
  width : Nat
  height : Nat
deriving DecidableEq

/-- Physical position in pixels; fields are Rust `i32` values. -/
structure PhysicalPosition where
  x : Int
  y : Int
deriving DecidableEq

/-- Reinterpret a `u32` value as `i32`, as Rust `as i32` does. -/
def u32_as_i32 (n : Nat) : Int :=
  if n % 2 ^ 32 < 2 ^ 31 then ((n % 2 ^ 32 : Nat) : Int)
  else ((n % 2 ^ 32 : Nat) : Int) - 2 ^ 32

/-- The window attributes the shell reads and writes. -/
structure WindowState where
  visible : Bool
  focused : Bool
  position : PhysicalPosition
  size : PhysicalSize
  alwaysOnTop : Bool
deriving DecidableEq

/-- Events emitted on the shell → UI event bus. -/
inductive Event where
  | shortcut (action : String)
  | overlay_expanded_changed (payload : Bool)
  | tray_action (payload : String)
deriving DecidableEq

/-- Application world: the two named windows (by lookup, as
`get_webview_window("overlay")` / `("main")`), the monitor resolved by
`current_monitor()`, and the emitted events. -/
structure World where
  overlay : Option WindowState
  main : Option WindowState
  monitor : Option PhysicalSize
  events : List Event
deriving DecidableEq

/-- Overlay dimensions (window.rs lines 7-10). -/
def OVERLAY_COLLAPSED_WIDTH : Nat := 420

def OVERLAY_COLLAPSED_HEIGHT : Nat := 100

def OVERLAY_EXPANDED_WIDTH : Nat := 420

def OVERLAY_EXPANDED_HEIGHT : Nat := 400

/-- The six anchor points (window.rs lines 139-148). -/
inductive OverlayPosition where
  | TopLeft
  | TopCenter
  | TopRight
  | BottomLeft
  | BottomCenter
  | BottomRight
deriving DecidableEq

/-- The `(x, y)` computed by `move_overlay`'s match (window.rs lines 90-115),
for monitor size `screen_size` and overlay outer size `window_size`. -/
def anchor_position (screen_size window_size : PhysicalSize) (position : OverlayPosition) :
    PhysicalPosition :=
  let padding : Int := 20
  match position with
  | OverlayPosition.TopLeft => ⟨padding, padding + 60⟩
  | OverlayPosition.TopCenter =>
      ⟨(u32_as_i32 screen_size.width - u32_as_i32 window_size.width).tdiv 2, padding + 60⟩
  | OverlayPosition.TopRight =>
      ⟨u32_as_i32 screen_size.width - u32_as_i32 window_size.width - padding, padding + 60⟩
  | OverlayPosition.BottomLeft =>
      ⟨padding, u32_as_i32 screen_size.height - u32_as_i32 window_size.height - padding⟩
  | OverlayPosition.BottomCenter =>
      ⟨(u32_as_i32 screen_size.width - u32_as_i32 window_size.width).tdiv 2,
       u32_as_i32 screen_size.height - u32_as_i32 window_size.height - padding⟩
  | OverlayPosition.BottomRight =>
      ⟨u32_as_i32 screen_size.width - u32_as_i32 window_size.width - padding,
       u32_as_i32 screen_size.height - u32_as_i32 window_size.height - padding⟩

/-- `toggle_overlay` (window.rs lines 38-53): on the existing overlay window,
read visibility; hide if visible, show and focus if hidden; return the new
visibility. Errors when the overlay window is absent. -/
def toggle_overlay (w : World) : Except String Bool × World :=
  match w.overlay with
  | some overlay =>
      let is_visible := overlay.visible
      if is_visible then
        (Except.ok (!is_visible), { w with overlay := some { overlay with visible := false } })
      else
        (Except.ok (!is_visible),
         { w with overlay := some { overlay with visible := true, focused := true } })
  | none => (Except.error "Overlay window not found", w)

/-- `set_overlay_expanded` (window.rs lines 57-77): resize the overlay to the
expanded or collapsed size, then emit `overlay_expanded_changed` with the
argument. Errors when the overlay window is absent. -/
def set_overlay_expanded (w : World) (expanded : Bool) : Except String Unit × World :=
  match w.overlay with
  | some overlay =>
      let wh : Nat × Nat :=
        if expanded then (OVERLAY_EXPANDED_WIDTH, OVERLAY_EXPANDED_HEIGHT)
        else (OVERLAY_COLLAPSED_WIDTH, OVERLAY_COLLAPSED_HEIGHT)
      let overlay1 : WindowState := { overlay with size := ⟨wh.1, wh.2⟩ }
      (Except.ok (),
       { w with
           overlay := some overlay1
           events := w.events ++ [Event.overlay_expanded_changed expanded] })
  | none => (Except.error "Overlay window not found", w)

/-- `move_overlay` (window.rs lines 81-125): compute the anchor position from
the current monitor size and the overlay's outer size (padding 20, extra 60
on top anchors for the menu bar) and set the overlay position. Errors when
the overlay window is absent or no monitor resolves. -/
def move_overlay (w : World) (position : OverlayPosition) : Except String Unit × World :=
  match w.overlay with
  | some overlay =>
      match w.monitor with
      | none => (Except.error "No monitor found", w)
      | some screen_size =>
          let window_size := overlay.size
          let xy := anchor_position screen_size window_size position
          (Except.ok (), { w with overlay := some { overlay with position := xy } })
  | none => (Except.error "Overlay window not found", w)

/-- `show_main_window` (window.rs lines 129-137): show and focus the main
window; errors when it is absent. -/
def show_main_window (w : World) : Except String Unit × World :=
  match w.main with
  | some mainWin =>
      (Except.ok (), { w with main := some { mainWin with visible := true, focused := true } })
  | none => (Except.error "Main window not found", w)

/-- Outcomes of the best-effort OS calls made inside `setup_windows`; the
source discards each result (`let _ = ...`, `if let Ok(...)`). -/
structure SetupOutcomes where
  set_size_ok : Bool
  monitor_ok : Bool
  set_position_ok : Bool
  set_always_on_top_ok : Bool
deriving DecidableEq

/-- The startup position computed by `setup_windows` (window.rs lines 22-23):
`x = screen width as i32 − 420 − 20`, `y = 100`. -/
def setup_initial_position (screen_size : PhysicalSize) : PhysicalPosition :=
  ⟨u32_as_i32 screen_size.width - u32_as_i32 OVERLAY_COLLAPSED_WIDTH - 20, 100⟩

/-- `setup_windows` (window.rs lines 12-34): when the overlay window exists,
best-effort set collapsed size, position top-right at fixed `y = 100` when a
monitor resolves, and set always-on-top; always returns `Ok(())`. -/
def setup_windows (os : SetupOutcomes) (w : World) : Except String Unit × World :=
  match w.overlay with
  | some overlay =>
      let overlay1 :=
        if os.set_size_ok then
          { overlay with size := ⟨OVERLAY_COLLAPSED_WIDTH, OVERLAY_COLLAPSED_HEIGHT⟩ }
        else overlay
      let overlay2 :=
        if os.monitor_ok then
          match w.monitor with
          | some screen_size =>
              if os.set_position_ok then
                { overlay1 with position := setup_initial_position screen_size }
              else overlay1
          | none => overlay1
        else overlay1
      let overlay3 :=
        if os.set_always_on_top_ok then { overlay2 with alwaysOnTop := true } else overlay2
      (Except.ok (), { w with overlay := some overlay3 })
  | none => (Except.ok (), w)

/-! ## Shortcuts (shortcuts.rs) -/

/-- Key codes used by the four registered chords. -/
inductive Code where
  | Backslash
  | Enter
  | KeyS
  | KeyR
deriving DecidableEq

/-- Modifier flags of a key-chord (from the global-shortcut plugin). -/
structure Modifiers where
  alt : Bool
  control : Bool
  meta : Bool
  shift : Bool
deriving DecidableEq

/-- `Modifiers::META` (the Command key on macOS, Super/Windows key elsewhere). -/
def Modifiers.META : Modifiers := ⟨false, false, true, false⟩

/-- `Modifiers::SHIFT`. -/
def Modifiers.SHIFT : Modifiers := ⟨false, false, false, true⟩

/-- `Modifiers::CONTROL` (the Ctrl key). -/
def Modifiers.CONTROL : Modifiers := ⟨false, true, false, false⟩

/-- Bitwise-or of modifier sets (`Modifiers::META | Modifiers::SHIFT`). -/
def Modifiers.union (a b : Modifiers) : Modifiers :=
  ⟨a.alt || b.alt, a.control || b.control, a.meta || b.meta, a.shift || b.shift⟩

/-- A global key-chord: modifier set plus key code. -/
structure Shortcut where
  mods : Modifiers
  key : Code
deriving DecidableEq

/-- `Shortcut::new(Some(Modifiers::META), Code::Backslash)` (shortcuts.rs line 16). -/
def toggle_overlay_shortcut : Shortcut := ⟨Modifiers.META, Code.Backslash⟩

/-- `Shortcut::new(Some(Modifiers::META), Code::Enter)` (shortcuts.rs line 17). -/
def trigger_assist_shortcut : Shortcut := ⟨Modifiers.META, Code.Enter⟩

/-- `Shortcut::new(Some(Modifiers::META | Modifiers::SHIFT), Code::KeyS)` (line 18). -/
def toggle_session_shortcut : Shortcut := ⟨Modifiers.META.union Modifiers.SHIFT, Code.KeyS⟩

/-- `Shortcut::new(Some(Modifiers::META), Code::KeyR)` (shortcuts.rs line 19). -/
def clear_context_shortcut : Shortcut := ⟨Modifiers.META, Code.KeyR⟩

/-- The array passed to `on_shortcuts` (shortcuts.rs line 23). -/
def registered_shortcuts : List Shortcut :=
  [toggle_overlay_shortcut, trigger_assist_shortcut, toggle_session_shortcut,
   clear_context_shortcut]

/-- State carried by a hotkey event. -/
inductive ShortcutState where
  | Pressed
  | Released
deriving DecidableEq

/-- The handler's match on `shortcut.id()` (shortcuts.rs lines 26-32):
the symbolic action string for a recognised chord, `none` for the
early-return default arm. -/
def shortcut_action (s : Shortcut) : Option String :=
  if s = toggle_overlay_shortcut then some "toggle_overlay"
  else if s = trigger_assist_shortcut then some "trigger_assist"
  else if s = toggle_session_shortcut then some "toggle_session"
  else if s = clear_context_shortcut then some "clear_context"
  else none

/-- The `on_shortcuts` handler closure (shortcuts.rs lines 24-52): on a
`Pressed` transition, look up the action; try to emit a `shortcut` event
(`emit_ok` is the outcome of `app_handle.emit`; on failure the error is
logged and swallowed); then, for the `toggle_overlay` action only, perform
the direct visibility toggle on the overlay window. Returns the new world
and the log lines written. -/
def shortcut_handler (s : Shortcut) (ev : ShortcutState) (emit_ok : Bool) (w : World) :
    World × List String :=
  if ev = ShortcutState.Pressed then
    match shortcut_action s with
    | none => (w, [])
    | some action =>
        let emitted : World × List String :=
          if emit_ok then
            ({ w with events := w.events ++ [Event.shortcut action] }, [])
          else
            (w, ["[Shortcuts] Failed to emit event"])
        let w1 := emitted.1
        if action = "toggle_overlay" then
          match w1.overlay with
          | some overlay =>
              let is_visible := overlay.visible
              if is_visible then
                ({ w1 with overlay := some { overlay with visible := false } }, emitted.2)
              else
                ({ w1 with overlay := some { overlay with visible := true, focused := true } },
                 emitted.2)
          | none => (w1, emitted.2)
        else (w1, emitted.2)
  else (w, [])

/-- An entry returned by `get_shortcuts` (shortcuts.rs lines 86-91). -/
structure ShortcutInfo where
  id : String
  keys : String
  description : String
deriving DecidableEq

/-- `get_shortcuts` (shortcuts.rs lines 61-84), parametrised by the
`cfg!(target_os = "macos")` compile-time test. -/
def get_shortcuts (target_os_macos : Bool) : List ShortcutInfo :=
  [⟨"toggle_overlay", if target_os_macos then "⌘\\" else "Ctrl+\\",
    "Toggle overlay visibility"⟩,
   ⟨"trigger_assist", if target_os_macos then "⌘↩" else "Ctrl+Enter",
    "Trigger AI assist"⟩,
   ⟨"toggle_session", if target_os_macos then "⌘⇧S" else "Ctrl+Shift+S",
    "Start/Stop session"⟩,
   ⟨"clear_context", if target_os_macos then "⌘R" else "Ctrl+R",
    "Clear context"⟩]

/-- Run a sequence of `move_overlay` calls, keeping only the state. -/
def run_moves (w : World) (ps : List OverlayPosition) : World :=
  ps.foldl (fun w p => (move_overlay w p).2) w

/-! ## Theorems -/

/-- C1: for every `OverlayPosition` anchor, on a world whose overlay window
exists with outer size `(ww, wh)` and whose monitor has size `(sw, sh)`,
`move_overlay` succeeds and sets exactly the position given by the formulas
left-x = 20, right-x = sw − ww − 20, center-x = (sw − ww) / 2 (truncating
signed division), top-y = 20 + 60 = 80, bottom-y = sh − wh − 20, all on the
`i32` reinterpretations of the `u32` sizes; in particular for screen
1920×1080 and window 420×400, `TopRight` yields (1480, 80) and `BottomLeft`
yields (20, 660). -/
theorem move_overlay_anchor_formulas :
    (∀ (sw sh ww wh : Nat) (vis foc aot : Bool) (p0 : PhysicalPosition)
       (mn : Option WindowState) (evs : List Event) (pos : OverlayPosition),
        move_overlay ⟨some ⟨vis, foc, p0, ⟨ww, wh⟩, aot⟩, mn, some ⟨sw, sh⟩, evs⟩ pos
          = (Except.ok (),
             ⟨some ⟨vis, foc,
                (match pos with
                 | OverlayPosition.TopLeft => ⟨20, 80⟩
                 | OverlayPosition.TopCenter =>
                     ⟨(u32_as_i32 sw - u32_as_i32 ww).tdiv 2, 80⟩
                 | OverlayPosition.TopRight =>
                     ⟨u32_as_i32 sw - u32_as_i32 ww - 20, 80⟩
                 | OverlayPosition.BottomLeft =>
                     ⟨20, u32_as_i32 sh - u32_as_i32 wh - 20⟩
                 | OverlayPosition.BottomCenter =>
                     ⟨(u32_as_i32 sw - u32_as_i32 ww).tdiv 2,
                      u32_as_i32 sh - u32_as_i32 wh - 20⟩
                 | OverlayPosition.BottomRight =>
                     ⟨u32_as_i32 sw - u32_as_i32 ww - 20,
                      u32_as_i32 sh - u32_as_i32 wh - 20⟩),
                ⟨ww, wh⟩, aot⟩, mn, some ⟨sw, sh⟩, evs⟩)) ∧
    ((move_overlay ⟨some ⟨false, false, ⟨0, 0⟩, ⟨420, 400⟩, false⟩, none,
        some ⟨1920, 1080⟩, []⟩ OverlayPosition.TopRight).2.overlay.map
        WindowState.position = some ⟨1480, 80⟩) ∧
    ((move_overlay ⟨some ⟨false, false, ⟨0, 0⟩, ⟨420, 400⟩, false⟩, none,
        some ⟨1920, 1080⟩, []⟩ OverlayPosition.BottomLeft).2.overlay.map
        WindowState.position = some ⟨20, 660⟩) := by
  refine ⟨fun sw sh ww wh vis foc aot p0 mn evs pos => ?_, by decide, by decide⟩
  cases pos <;> rfl

/-- C3: on a world whose overlay window exists with visibility `v`,
`toggle_overlay` returns `Ok (!v)`, hides the window when `v` is true,
shows and focuses it when `v` is false, and a second call restores the
original visibility. -/
theorem toggle_overlay_negates_visibility (w : World) (ov : WindowState)
    (h : w.overlay = some ov) :
    toggle_overlay w
      = (Except.ok (!ov.visible),
         { w with overlay := some (if ov.visible then { ov with visible := false }
                                   else { ov with visible := true, focused := true }) }) ∧
    (toggle_overlay (toggle_overlay w).2).2.overlay.map WindowState.visible
      = some ov.visible := by
  obtain ⟨o, m, mon, evs⟩ := w
  cases h
  cases hv : ov.visible <;> simp [toggle_overlay, hv]

/-- Witness for C3 at a concrete visible overlay window. -/
theorem toggle_overlay_negates_visibility_witness :
    ((⟨some ⟨true, false, ⟨0, 0⟩, ⟨420, 100⟩, false⟩, none, none, []⟩ : World).overlay
        = some ⟨true, false, ⟨0, 0⟩, ⟨420, 100⟩, false⟩) ∧
    (toggle_overlay ⟨some ⟨true, false, ⟨0, 0⟩, ⟨420, 100⟩, false⟩, none, none, []⟩
        = (Except.ok false,
           ⟨some ⟨false, false, ⟨0, 0⟩, ⟨420, 100⟩, false⟩, none, none, []⟩) ∧
     (toggle_overlay (toggle_overlay
        ⟨some ⟨true, false, ⟨0, 0⟩, ⟨420, 100⟩, false⟩, none, none, []⟩).2).2.overlay.map
        WindowState.visible = some true) :=
  ⟨rfl, by
    have h := toggle_overlay_negates_visibility
      ⟨some ⟨true, false, ⟨0, 0⟩, ⟨420, 100⟩, false⟩, none, none, []⟩
      ⟨true, false, ⟨0, 0⟩, ⟨420, 100⟩, false⟩ rfl
    simpa using h⟩

/-- C4: on a world where the overlay window is absent, `toggle_overlay`,
`set_overlay_expanded` and `move_overlay` each return the error
"Overlay window not found" and leave the world unchanged; on a world where
the main window is absent, `show_main_window` returns
"Main window not found" and leaves the world unchanged. -/
theorem window_ops_not_found (w : World) (b : Bool) (pos : OverlayPosition)
    (hov : w.overlay = none) (hm : w.main = none) :
    toggle_overlay w = (Except.error "Overlay window not found", w) ∧
    set_overlay_expanded w b = (Except.error "Overlay window not found", w) ∧
    move_overlay w pos = (Except.error "Overlay window not found", w) ∧
    show_main_window w = (Except.error "Main window not found", w) := by
  obtain ⟨o, m, mon, evs⟩ := w
  cases hov
  cases hm
  exact ⟨rfl, rfl, rfl, rfl⟩

/-- Witness for C4 at a concrete world with no windows. -/
theorem window_ops_not_found_witness :
    ((⟨none, none, some ⟨1920, 1080⟩, []⟩ : World).overlay = none) ∧
    ((⟨none, none, some ⟨1920, 1080⟩, []⟩ : World).main = none) ∧
    (toggle_overlay ⟨none, none, some ⟨1920, 1080⟩, []⟩
        = (Except.error "Overlay window not found",
           ⟨none, none, some ⟨1920, 1080⟩, []⟩) ∧
     set_overlay_expanded ⟨none, none, some ⟨1920, 1080⟩, []⟩ true
        = (Except.error "Overlay window not found",
           ⟨none, none, some ⟨1920, 1080⟩, []⟩) ∧
     move_overlay ⟨none, none, some ⟨1920, 1080⟩, []⟩ OverlayPosition.TopRight
        = (Except.error "Overlay window not found",
           ⟨none, none, some ⟨1920, 1080⟩, []⟩) ∧
     show_main_window ⟨none, none, some ⟨1920, 1080⟩, []⟩
        = (Except.error "Main window not found",
           ⟨none, none, some ⟨1920, 1080⟩, []⟩)) :=
  ⟨rfl, rfl, window_ops_not_found _ true OverlayPosition.TopRight rfl rfl⟩

/-- C6: on a world whose overlay window exists, `set_overlay_expanded b`
succeeds, resizes the overlay to 420×400 when `b` is true and to 420×100
when `b` is false, and emits `overlay_expanded_changed` with payload `b`. -/
theorem set_overlay_expanded_sizes (w : World) (ov : WindowState) (expanded : Bool)
    (h : w.overlay = some ov) :
    set_overlay_expanded w expanded
      = (Except.ok (),
         { w with
             overlay := some { ov with size := if expanded then ⟨420, 400⟩ else ⟨420, 100⟩ }
             events := w.events ++ [Event.overlay_expanded_changed expanded] }) := by
  obtain ⟨o, m, mon, evs⟩ := w
  cases h
  cases expanded <;> rfl

/-- Witness for C6 at a concrete world, expanding. -/
theorem set_overlay_expanded_sizes_witness :
    ((⟨some ⟨true, false, ⟨5, 7⟩, ⟨420, 100⟩, true⟩, none, none, []⟩ : World).overlay
        = some ⟨true, false, ⟨5, 7⟩, ⟨420, 100⟩, true⟩) ∧
    set_overlay_expanded ⟨some ⟨true, false, ⟨5, 7⟩, ⟨420, 100⟩, true⟩, none, none, []⟩ true
      = (Except.ok (),
         ⟨some ⟨true, false, ⟨5, 7⟩, ⟨420, 400⟩, true⟩, none, none,
          [Event.overlay_expanded_changed true]⟩) :=
  ⟨rfl, by
    have h := set_overlay_expanded_sizes
      ⟨some ⟨true, false, ⟨5, 7⟩, ⟨420, 100⟩, true⟩, none, none, []⟩
      ⟨true, false, ⟨5, 7⟩, ⟨420, 100⟩, true⟩ true rfl
    simpa using h⟩

/-- `move_overlay` never creates or removes the overlay window. -/
theorem move_overlay_keeps_overlay_isSome (w : World) (p : OverlayPosition) :
    ((move_overlay w p).2.overlay).isSome = w.overlay.isSome := by
  obtain ⟨o, m, mon, evs⟩ := w
  cases o <;> cases mon <;> rfl

/-- A sequence of `move_overlay` calls never creates or removes the overlay
window. -/
theorem run_moves_keeps_overlay_isSome (w : World) (ps : List OverlayPosition) :
    ((run_moves w ps).overlay).isSome = w.overlay.isSome := by
  induction ps generalizing w with
  | nil => rfl
  | cons p ps ih =>
      have hstep : run_moves w (p :: ps) = run_moves (move_overlay w p).2 ps := rfl
      rw [hstep, ih, move_overlay_keeps_overlay_isSome]

/-- Collapsing always leaves the overlay at the collapsed size 420×100,
whenever the overlay window exists. -/
theorem set_overlay_expanded_false_size (w : World) (h : (w.overlay).isSome = true) :
    ((set_overlay_expanded w false).2.overlay).map WindowState.size
      = some ⟨420, 100⟩ := by
  obtain ⟨o, m, mon, evs⟩ := w
  cases o with
  | none => simp at h
  | some ov => rfl

/-- C7: on a world whose overlay window exists, `set_overlay_expanded`
leaves the overlay position unchanged for every boolean argument; and
`set_overlay_expanded true` followed by any sequence of `move_overlay`
calls and then `set_overlay_expanded false` leaves the overlay at exactly
the collapsed size 420×100. -/
theorem set_overlay_expanded_preserves_position (w : World) (ov : WindowState) (b : Bool)
    (ps : List OverlayPosition) (h : w.overlay = some ov) :
    (((set_overlay_expanded w b).2.overlay).map WindowState.position = some ov.position) ∧
    (((set_overlay_expanded (run_moves (set_overlay_expanded w true).2 ps) false).2.overlay).map
        WindowState.size = some ⟨420, 100⟩) := by
  constructor
  · obtain ⟨o, m, mon, evs⟩ := w
    cases h
    cases b <;> rfl
  · apply set_overlay_expanded_false_size
    rw [run_moves_keeps_overlay_isSome]
    obtain ⟨o, m, mon, evs⟩ := w
    cases h
    rfl

/-- Witness for C7 at a concrete world, with one interleaved move. -/
theorem set_overlay_expanded_preserves_position_witness :
    ((⟨some ⟨true, false, ⟨5, 7⟩, ⟨420, 100⟩, true⟩, none, some ⟨1920, 1080⟩, []⟩ : World).overlay
        = some ⟨true, false, ⟨5, 7⟩, ⟨420, 100⟩, true⟩) ∧
    ((((set_overlay_expanded
          ⟨some ⟨true, false, ⟨5, 7⟩, ⟨420, 100⟩, true⟩, none, some ⟨1920, 1080⟩, []⟩
          true).2.overlay).map WindowState.position = some ⟨5, 7⟩) ∧
     (((set_overlay_expanded
          (run_moves (set_overlay_expanded
             ⟨some ⟨true, false, ⟨5, 7⟩, ⟨420, 100⟩, true⟩, none, some ⟨1920, 1080⟩, []⟩
             true).2 [OverlayPosition.BottomLeft]) false).2.overlay).map
        WindowState.size = some ⟨420, 100⟩)) :=
  ⟨rfl, set_overlay_expanded_preserves_position
    ⟨some ⟨true, false, ⟨5, 7⟩, ⟨420, 100⟩, true⟩, none, some ⟨1920, 1080⟩, []⟩
    ⟨true, false, ⟨5, 7⟩, ⟨420, 100⟩, true⟩ true [OverlayPosition.BottomLeft] rfl⟩

/-- C5: for a chord bound to action `act`, the handler is a no-op on a
`Released` transition; on `Pressed` it appends a `shortcut` event carrying
`act` when emission succeeds, and logs and swallows the failure (no event)
when emission fails; and when `act` is `toggle_overlay` the direct
visibility toggle runs in the same pass for every visibility state and
every emission outcome, while other actions leave the overlay untouched. -/
theorem shortcut_handler_emits_and_toggles (s : Shortcut) (act : String) (emit_ok : Bool)
    (w : World) (ov : WindowState)
    (ha : shortcut_action s = some act) (hov : w.overlay = some ov) :
    (shortcut_handler s ShortcutState.Released emit_ok w = (w, [])) ∧
    ((shortcut_handler s ShortcutState.Pressed true w).1.events
        = w.events ++ [Event.shortcut act]) ∧
    ((shortcut_handler s ShortcutState.Pressed false w).1.events = w.events ∧
     (shortcut_handler s ShortcutState.Pressed false w).2
        = ["[Shortcuts] Failed to emit event"]) ∧
    (act = "toggle_overlay" →
        ((shortcut_handler s ShortcutState.Pressed emit_ok w).1.overlay).map
            WindowState.visible = some (!ov.visible)) ∧
    (act ≠ "toggle_overlay" →
        (shortcut_handler s ShortcutState.Pressed emit_ok w).1.overlay = w.overlay) := by
  obtain ⟨o, m, mon, evs⟩ := w
  cases hov
  by_cases hact : act = "toggle_overlay" <;>
    cases hv : ov.visible <;> cases emit_ok <;>
      simp [shortcut_handler, ha, hact, hv]

/-- Witness for C5: the `toggle_overlay` chord pressed on a hidden overlay
with failing emission still toggles visibility and logs the failure. -/
theorem shortcut_handler_emits_and_toggles_witness :
    (shortcut_action toggle_overlay_shortcut = some "toggle_overlay") ∧
    ((⟨some ⟨false, false, ⟨0, 0⟩, ⟨420, 100⟩, true⟩, none, none, []⟩ : World).overlay
        = some ⟨false, false, ⟨0, 0⟩, ⟨420, 100⟩, true⟩) ∧
    ((shortcut_handler toggle_overlay_shortcut ShortcutState.Released false
        ⟨some ⟨false, false, ⟨0, 0⟩, ⟨420, 100⟩, true⟩, none, none, []⟩
        = (⟨some ⟨false, false, ⟨0, 0⟩, ⟨420, 100⟩, true⟩, none, none, []⟩, [])) ∧
     ((shortcut_handler toggle_overlay_shortcut ShortcutState.Pressed true
        ⟨some ⟨false, false, ⟨0, 0⟩, ⟨420, 100⟩, true⟩, none, none, []⟩).1.events
        = [] ++ [Event.shortcut "toggle_overlay"]) ∧
     ((shortcut_handler toggle_overlay_shortcut ShortcutState.Pressed false
        ⟨some ⟨false, false, ⟨0, 0⟩, ⟨420, 100⟩, true⟩, none, none, []⟩).1.events = [] ∧
      (shortcut_handler toggle_overlay_shortcut ShortcutState.Pressed false
        ⟨some ⟨false, false, ⟨0, 0⟩, ⟨420, 100⟩, true⟩, none, none, []⟩).2
        = ["[Shortcuts] Failed to emit event"]) ∧
     ("toggle_overlay" = "toggle_overlay" →
        ((shortcut_handler toggle_overlay_shortcut ShortcutState.Pressed false
           ⟨some ⟨false, false, ⟨0, 0⟩, ⟨420, 100⟩, true⟩, none, none, []⟩).1.overlay).map
           WindowState.visible = some true) ∧
     ("toggle_overlay" ≠ "toggle_overlay" →
        (shortcut_handler toggle_overlay_shortcut ShortcutState.Pressed false
          ⟨some ⟨false, false, ⟨0, 0⟩, ⟨420, 100⟩, true⟩, none, none, []⟩).1.overlay
          = some ⟨false, false, ⟨0, 0⟩, ⟨420, 100⟩, true⟩)) :=
  ⟨rfl, rfl, by
    have h := shortcut_handler_emits_and_toggles toggle_overlay_shortcut "toggle_overlay"
      false ⟨some ⟨false, false, ⟨0, 0⟩, ⟨420, 100⟩, true⟩, none, none, []⟩
      ⟨false, false, ⟨0, 0⟩, ⟨420, 100⟩, true⟩ rfl rfl
    simpa using h⟩

/-- C2 (code behavior at the failing input): all four registered chords use
`Modifiers::META` as their primary modifier — unconditionally, with no
platform test anywhere in the registration — so on a non-macOS platform
the registered modifier has the `control` flag false (it is the Super or
Windows key, not Ctrl), while the key codes and the count match the four
symbolic actions. -/
theorem registered_shortcuts_modifier_is_meta :
    registered_shortcuts.map Shortcut.mods
      = [Modifiers.META, Modifiers.META, Modifiers.META.union Modifiers.SHIFT,
         Modifiers.META] ∧
    (∀ s ∈ registered_shortcuts, s.mods.meta = true ∧ s.mods.control = false) ∧
    Modifiers.CONTROL.control = true ∧
    registered_shortcuts.map Shortcut.key
      = [Code.Backslash, Code.Enter, Code.KeyS, Code.KeyR] ∧
    registered_shortcuts.length = 4 := by
  decide

/-- C9: `get_shortcuts` is a pure query returning, on every platform,
exactly 4 entries whose ids are in order `toggle_overlay`, `trigger_assist`,
`toggle_session`, `clear_context`; the descriptions are identical across
platforms, and only the `keys` strings differ. -/
theorem get_shortcuts_entries :
    (∀ mac : Bool,
       (get_shortcuts mac).map ShortcutInfo.id
         = ["toggle_overlay", "trigger_assist", "toggle_session", "clear_context"] ∧
       (get_shortcuts mac).length = 4) ∧
    ((get_shortcuts true).map ShortcutInfo.description
       = (get_shortcuts false).map ShortcutInfo.description) ∧
    ((get_shortcuts true).map ShortcutInfo.keys
       ≠ (get_shortcuts false).map ShortcutInfo.keys) := by
  decide

/-- C8: with all best-effort OS calls succeeding, on a world whose overlay
window exists and whose monitor resolves to `screen`, `setup_windows`
returns `Ok(())` and sets exactly collapsed size 420×100, position
`(screen width as i32 − 420 − 20, 100)` and always-on-top; moreover the
startup placement rule differs from each of the six anchor rules (for the
collapsed window 420×100), and from `TopRight` on every screen, since the
`TopRight` y is 80 while the startup y is 100. -/
theorem setup_windows_initial_placement (w : World) (ov : WindowState)
    (screen : PhysicalSize) (hov : w.overlay = some ov) (hm : w.monitor = some screen) :
    setup_windows ⟨true, true, true, true⟩ w
      = (Except.ok (),
         { w with overlay := some { ov with
             size := ⟨420, 100⟩
             position := ⟨u32_as_i32 screen.width - 420 - 20, 100⟩
             alwaysOnTop := true } }) ∧
    (∀ p : OverlayPosition, ∃ s : PhysicalSize,
        anchor_position s ⟨420, 100⟩ p ≠ setup_initial_position s) ∧
    (∀ s : PhysicalSize,
        anchor_position s ⟨420, 100⟩ OverlayPosition.TopRight ≠ setup_initial_position s ∧
        (anchor_position s ⟨420, 100⟩ OverlayPosition.TopRight).y = 80 ∧
        (setup_initial_position s).y = 100) := by
  refine ⟨?_, fun p => ⟨⟨1920, 1080⟩, by cases p <;> decide⟩,
          fun s => ⟨fun hcontra => absurd (congrArg PhysicalPosition.y hcontra)
                      ((by decide : ¬((20 : Int) + 60 = 100))),
                    rfl, rfl⟩⟩
  obtain ⟨o, m, mon, evs⟩ := w
  cases hov
  cases hm
  rfl

/-- Witness for C8 at a concrete 1920×1080 world. -/
theorem setup_windows_initial_placement_witness :
    ((⟨some ⟨false, false, ⟨0, 0⟩, ⟨800, 600⟩, false⟩, none, some ⟨1920, 1080⟩, []⟩ :
        World).overlay = some ⟨false, false, ⟨0, 0⟩, ⟨800, 600⟩, false⟩) ∧
    ((⟨some ⟨false, false, ⟨0, 0⟩, ⟨800, 600⟩, false⟩, none, some ⟨1920, 1080⟩, []⟩ :
        World).monitor = some ⟨1920, 1080⟩) ∧
    (setup_windows ⟨true, true, true, true⟩
        ⟨some ⟨false, false, ⟨0, 0⟩, ⟨800, 600⟩, false⟩, none, some ⟨1920, 1080⟩, []⟩
      = (Except.ok (),
         ⟨some ⟨false, false, ⟨1480, 100⟩, ⟨420, 100⟩, true⟩, none,
          some ⟨1920, 1080⟩, []⟩) ∧
     (∀ p : OverlayPosition, ∃ s : PhysicalSize,
        anchor_position s ⟨420, 100⟩ p ≠ setup_initial_position s) ∧
     (∀ s : PhysicalSize,
        anchor_position s ⟨420, 100⟩ OverlayPosition.TopRight ≠ setup_initial_position s ∧
        (anchor_position s ⟨420, 100⟩ OverlayPosition.TopRight).y = 80 ∧
        (setup_initial_position s).y = 100)) :=
  ⟨rfl, rfl, by
    have h := setup_windows_initial_placement
      ⟨some ⟨false, false, ⟨0, 0⟩, ⟨800, 600⟩, false⟩, none, some ⟨1920, 1080⟩, []⟩
      ⟨false, false, ⟨0, 0⟩, ⟨800, 600⟩, false⟩ ⟨1920, 1080⟩ rfl rfl
    simpa using h⟩

/-- C10: `setup_windows` returns `Ok(())` for every world and every
combination of best-effort OS-call outcomes — no OS-call failure during
window setup can abort startup — and when the overlay window is absent it
performs no initialization at all and leaves the world unchanged. -/
theorem setup_windows_always_ok (os : SetupOutcomes) (w : World) :
    (setup_windows os w).1 = Except.ok () ∧
    (w.overlay = none → setup_windows os w = (Except.ok (), w)) := by
  obtain ⟨o, m, mon, evs⟩ := w
  cases o <;> simp [setup_windows]

/-- Witness for C10: a world with no overlay window and no monitor, with
every OS call failing, still yields `Ok(())` unchanged. -/
theorem setup_windows_always_ok_witness :
    ((⟨none, none, none, []⟩ : World).overlay = none) ∧
    ((setup_windows ⟨false, false, false, false⟩ ⟨none, none, none, []⟩).1
        = Except.ok () ∧
     setup_windows ⟨false, false, false, false⟩ ⟨none, none, none, []⟩
        = (Except.ok (), ⟨none, none, none, []⟩)) :=
  ⟨rfl, by
    have h := setup_windows_always_ok ⟨false, false, false, false⟩ ⟨none, none, none, []⟩
    exact ⟨h.1, h.2 rfl⟩⟩

end QueenMama
